import Mathlib

/-!
Verification of the remix-starter repository's specification against its code.

The development shallowly embeds three components:
* the environment resolver (`getClientEnv` / `getServerEnv`),
* the structured logger's context-serialization step (`LoggerFactory.createLogger`),
* the Firestore REST adapter (`FirebaseRestApi`): value conversion, structured-query
  construction, input validation, request dispatch, and the cached-identity lifecycle.

The environment resolver and logger are embedded from their TypeScript sources.
The REST adapter's implementation file is not among the provided sources (only its
unit tests are), so its definitions are modelled from the specification, with the
repository's unit tests pinning concrete details; each such definition says so in
its documentation.
-/

/-- A source of environment variables: a partial map from key to string value.
`none` models a key that is absent (JavaScript `undefined`). -/
def EnvSource : Type := String → Option String

/-- JavaScript truthiness of an optional string: `undefined` and the empty
string are falsy; every other string is truthy. -/
def truthyStr : Option String → Bool
  | none => false
  | some s => !s.isEmpty

/-- Embeds the `getEnvVar` helper shared verbatim by `getClientEnv` (lines 52-57)
and `getServerEnv` (lines 94-99) of the environment-resolver source:
`context?.env?.[key] || (typeof process !== 'undefined' ? process.env[key] : undefined)`.
JavaScript's `||` returns its right operand whenever the left one is falsy, i.e.
absent or the empty string. `processAvailable` models the
`typeof process !== 'undefined'` guard. -/
def getEnvVar (contextEnv : EnvSource) (processAvailable : Bool)
    (processEnv : EnvSource) (key : String) : Option String :=
  if truthyStr (contextEnv key) then contextEnv key
  else if processAvailable then processEnv key else none

/-- The record returned by `getServerEnv` (environment-resolver source,
lines 101-109). Each field is the raw resolved string, `none` when unset. -/
structure ServerEnv where
  FIREBASE_CONFIG : Option String
  FIREBASE_PROJECT_ID : Option String
  FIREBASE_SERVICE_ACCOUNT_KEY : Option String
  GOOGLE_GENERATIVE_AI_API_KEY : Option String
  GOOGLE_GENERATIVE_AI_MODEL_NAME : Option String
deriving DecidableEq, Repr

/-- Embeds `getServerEnv` (environment-resolver source, lines 93-110): every
field of the result is resolved through `getEnvVar` at its own key. -/
def getServerEnv (contextEnv : EnvSource) (processAvailable : Bool)
    (processEnv : EnvSource) : ServerEnv :=
  { FIREBASE_CONFIG := getEnvVar contextEnv processAvailable processEnv "FIREBASE_CONFIG"
    FIREBASE_PROJECT_ID := getEnvVar contextEnv processAvailable processEnv "FIREBASE_PROJECT_ID"
    FIREBASE_SERVICE_ACCOUNT_KEY :=
      getEnvVar contextEnv processAvailable processEnv "FIREBASE_SERVICE_ACCOUNT_KEY"
    GOOGLE_GENERATIVE_AI_API_KEY :=
      getEnvVar contextEnv processAvailable processEnv "GOOGLE_GENERATIVE_AI_API_KEY"
    GOOGLE_GENERATIVE_AI_MODEL_NAME :=
      getEnvVar contextEnv processAvailable processEnv "GOOGLE_GENERATIVE_AI_MODEL_NAME" }

/-- The raw resolutions performed by `getClientEnv` (environment-resolver
source, lines 51-76): the string fed to `JSON.parse` for `FIREBASE_CONFIG`
(line 59) and the resolved application name
(line 74: `getEnvVar('APP_NAME') || 'remix-app'`). The JSON parsing step is not
embedded; the claims under verification concern source priority only. -/
structure ClientEnvRaw where
  firebaseConfigRaw : Option String
  appName : String
deriving DecidableEq, Repr

/-- Embeds the resolution logic of `getClientEnv` (environment-resolver source,
lines 51-76), stopping short of the `JSON.parse` call. -/
def getClientEnvRaw (contextEnv : EnvSource) (processAvailable : Bool)
    (processEnv : EnvSource) : ClientEnvRaw :=
  { firebaseConfigRaw := getEnvVar contextEnv processAvailable processEnv "FIREBASE_CONFIG"
    appName :=
      match getEnvVar contextEnv processAvailable processEnv "APP_NAME" with
      | some s => if s.isEmpty then "remix-app" else s
      | none => "remix-app" }

/-- JSON values, used to model the plain-object and array payloads a caller can
pass in a log context; the logger renders them with `JSON.stringify`. A number
is carried by its JavaScript string rendering, which is all `JSON.stringify`
uses of it. -/
inductive Json where
  | null
  | bool (b : Bool)
  | num (render : String)
  | str (s : String)
  | arr (items : List Json)
  | obj (fields : List (String × Json))
deriving Repr

/-- One character of `JSON.stringify` string escaping. -/
def jsonEscapeChar (c : Char) : String :=
  if c = '"' then "\\\""
  else if c = '\\' then "\\\\"
  else if c = '\n' then "\\n"
  else if c = '\t' then "\\t"
  else if c = '\r' then "\\r"
  else c.toString

/-- String-body escaping of `JSON.stringify`. -/
def jsonEscape (s : String) : String :=
  String.join (s.toList.map jsonEscapeChar)

/-- Models the JavaScript builtin `JSON.stringify` on the payload values the
logger can receive. -/
def jsonStringify : Json → String
  | .null => "null"
  | .bool true => "true"
  | .bool false => "false"
  | .num render => render
  | .str s => "\"" ++ jsonEscape s ++ "\""
  | .arr items =>
      "[" ++ String.intercalate "," (items.attach.map fun x => jsonStringify x.1) ++ "]"
  | .obj fields =>
      "\x7b" ++ String.intercalate ","
        (fields.attach.map fun kv =>
          "\"" ++ jsonEscape kv.1.1 ++ "\":" ++ jsonStringify kv.1.2) ++ "\x7d"
decreasing_by
  · have := List.sizeOf_lt_of_mem x.2
    simp only [Json.arr.sizeOf_spec]
    omega
  · rcases kv with ⟨⟨k, v⟩, hm⟩
    have := List.sizeOf_lt_of_mem hm
    simp only [Prod.mk.sizeOf_spec] at this
    simp only [Json.obj.sizeOf_spec]
    omega

/-- The values a log context entry can hold (logger source, type `LogValue`,
lines 43-52). An `Error` is carried by its `message`, a `Date` by its
`toISOString()` rendering — the only attributes the serializer reads. A number
is carried by its JavaScript string rendering; the serializer passes numbers
through untouched. -/
inductive LogValue where
  | str (s : String)
  | num (render : String)
  | bool (b : Bool)
  | undef
  | date (iso : String)
  | err (message : String)
  | obj (fields : List (String × Json))
  | arr (items : List Json)
deriving Repr

/-- Whether a log value is one of the flat primitive shapes
(string / number / boolean) that the logger is allowed to emit. -/
def LogValue.isPrim : LogValue → Bool
  | .str _ => true
  | .num _ => true
  | .bool _ => true
  | _ => false

/-- Embeds one iteration of the `serialize` closure in
`LoggerFactory.createLogger` (logger source, lines 91-109), returning `none`
for the `continue` branch: `undefined` is skipped; an `Error` becomes its
message; a `Date` becomes its ISO string; objects and arrays become their
`JSON.stringify` rendering; strings, numbers and booleans pass through. -/
def serializeLogValue : LogValue → Option LogValue
  | .undef => none
  | .err message => some (.str message)
  | .date iso => some (.str iso)
  | .obj fields => some (.str (jsonStringify (.obj fields)))
  | .arr items => some (.str (jsonStringify (.arr items)))
  | .str s => some (.str s)
  | .num render => some (.num render)
  | .bool b => some (.bool b)

/-- Embeds the `serialize` closure of `LoggerFactory.createLogger` (logger
source, lines 91-109) over the whole context, modelled as an entry list in
`Object.entries` order. -/
def serializeLogContext (context : List (String × LogValue)) :
    List (String × LogValue) :=
  context.filterMap fun kv => (serializeLogValue kv.2).map fun v => (kv.1, v)

/-- A context environment whose only entry is `FIREBASE_PROJECT_ID`, set to the
empty string (set-but-falsy). -/
def ctxEmptyProjectId : EnvSource :=
  fun key => if key = "FIREBASE_PROJECT_ID" then some "" else none

/-- A process environment carrying `FIREBASE_PROJECT_ID = "proc-project"`. -/
def procProjectId : EnvSource :=
  fun key => if key = "FIREBASE_PROJECT_ID" then some "proc-project" else none

/-- Modelled from the spec: the REST adapter's source file
(`app/services/firebase-restapi.ts`) is missing from the provided sources;
only its unit tests are present. JavaScript runtime values reaching the
adapter are modelled as a tagged union whose constructors are the type shapes
the spec's value-mapping precedence tests for (spec §4.1). A number carries
the result of JavaScript's `Number.isInteger` test together with its
`toString()` rendering — the only two attributes the conversion reads; a
`Date` carries its `toISOString()` rendering. `other` stands for values such
as functions and symbols matching none of the tested shapes. -/
inductive JSValue where
  | undef
  | null
  | date (iso : String)
  | arr (items : List JSValue)
  | obj (fields : List (String × JSValue))
  | bool (b : Bool)
  | num (isInteger : Bool) (render : String)
  | str (s : String)
  | other
deriving Repr

/-- Modelled from the spec: the wire encoding of one Firestore value
(spec §4.1 value-type mapping; §6 wire protocol). `integerValue` and
`doubleValue` carry the number's string rendering as placed in the JSON body;
`timestampValue` carries the ISO-8601 string. -/
inductive FirestoreValue where
  | nullValue
  | timestampValue (iso : String)
  | arrayValue (values : List FirestoreValue)
  | mapValue (fields : List (String × FirestoreValue))
  | booleanValue (b : Bool)
  | integerValue (render : String)
  | doubleValue (render : String)
  | stringValue (s : String)
deriving Repr

/-- Modelled from the spec: the value-type mapping used for filter values and
write payloads (spec §4.1), with one branch per shape of the spec's stated
precedence order. The integer branch stores the number's JavaScript
`toString()` rendering: the repository's unit tests
(firebase-restapi.test.ts, `should handle large numbers correctly`) pin this
to scientific notation for very large magnitudes, e.g.
`integerValue: '1.7976931348623157e+308'`. -/
def convertValue : JSValue → FirestoreValue
  | .undef => .nullValue
  | .null => .nullValue
  | .date iso => .timestampValue iso
  | .arr items => .arrayValue (items.attach.map fun x => convertValue x.1)
  | .obj fields => .mapValue (fields.attach.map fun kv => (kv.1.1, convertValue kv.1.2))
  | .bool b => .booleanValue b
  | .num true render => .integerValue render
  | .num false render => .doubleValue render
  | .str s => .stringValue s
  | .other => .stringValue "unsupported_type"
decreasing_by
  · have := List.sizeOf_lt_of_mem x.2
    simp only [JSValue.arr.sizeOf_spec]
    omega
  · rcases kv with ⟨⟨k, v⟩, hm⟩
    have := List.sizeOf_lt_of_mem hm
    simp only [Prod.mk.sizeOf_spec] at this
    simp only [JSValue.obj.sizeOf_spec]
    omega

/-- Modelled from the spec: decoding one wire value back to a plain value
(spec §4.1 output rules: native types restored — string, number, boolean,
null, array, nested object — and timestamps restored as ISO-8601 strings). An
`integerValue` decodes to an integer-valued number and a `doubleValue` to a
non-integer one, each carrying the wire rendering. -/
def decodeValue : FirestoreValue → JSValue
  | .nullValue => .null
  | .timestampValue iso => .str iso
  | .arrayValue values => .arr (values.attach.map fun x => decodeValue x.1)
  | .mapValue fields => .obj (fields.attach.map fun kv => (kv.1.1, decodeValue kv.1.2))
  | .booleanValue b => .bool b
  | .integerValue render => .num true render
  | .doubleValue render => .num false render
  | .stringValue s => .str s
decreasing_by
  · have := List.sizeOf_lt_of_mem x.2
    simp only [FirestoreValue.arrayValue.sizeOf_spec]
    omega
  · rcases kv with ⟨⟨k, v⟩, hm⟩
    have := List.sizeOf_lt_of_mem hm
    simp only [Prod.mk.sizeOf_spec] at this
    simp only [FirestoreValue.mapValue.sizeOf_spec]
    omega

/-- Whether a plain value is built only from the supported shapes of the
spec's round-trip property — everything except the `other`
(function/symbol/...) fallback. -/
def SupportedValue : JSValue → Bool
  | .undef => true
  | .null => true
  | .date _ => true
  | .arr items => items.attach.all fun x => SupportedValue x.1
  | .obj fields => fields.attach.all fun kv => SupportedValue kv.1.2
  | .bool _ => true
  | .num _ _ => true
  | .str _ => true
  | .other => false
decreasing_by
  · have := List.sizeOf_lt_of_mem x.2
    simp only [JSValue.arr.sizeOf_spec]
    omega
  · rcases kv with ⟨⟨k, v⟩, hm⟩
    have := List.sizeOf_lt_of_mem hm
    simp only [Prod.mk.sizeOf_spec] at this
    simp only [JSValue.obj.sizeOf_spec]
    omega

/-- The image of a plain value under encode-then-decode: `undefined` becomes
explicit `null` and a `Date` becomes its ISO-8601 string, recursively; every
other supported shape is untouched. -/
def roundTripImage : JSValue → JSValue
  | .undef => .null
  | .null => .null
  | .date iso => .str iso
  | .arr items => .arr (items.attach.map fun x => roundTripImage x.1)
  | .obj fields => .obj (fields.attach.map fun kv => (kv.1.1, roundTripImage kv.1.2))
  | .bool b => .bool b
  | .num isInteger render => .num isInteger render
  | .str s => .str s
  | .other => .other
decreasing_by
  · have := List.sizeOf_lt_of_mem x.2
    simp only [JSValue.arr.sizeOf_spec]
    omega
  · rcases kv with ⟨⟨k, v⟩, hm⟩
    have := List.sizeOf_lt_of_mem hm
    simp only [Prod.mk.sizeOf_spec] at this
    simp only [JSValue.obj.sizeOf_spec]
    omega

/-- Modelled from the spec: the `{ fields: ... }` write body produced by
`convertToFirestoreDocument` from a plain object, modelled as a field list in
`Object.entries` order. -/
structure FirestoreDocumentBody where
  fields : List (String × FirestoreValue)
deriving Repr

/-- Modelled from the spec: `convertToFirestoreDocument` converts a plain
object by applying the value-type mapping to every field (spec §4.1 write
direction; unit tests `Firestore Data Conversion Utilities`). -/
def convertToFirestoreDocument (doc : List (String × JSValue)) : FirestoreDocumentBody :=
  ⟨doc.map fun kv => (kv.1, convertValue kv.2)⟩

/-- Modelled from the spec: decoding a wire document's field map back into a
plain object (spec §4.1 output rules). -/
def decodeFields (fields : List (String × FirestoreValue)) : List (String × JSValue) :=
  fields.map fun kv => (kv.1, decodeValue kv.2)

/-- Modelled from the spec: the fixed filter-operator vocabulary of the query
descriptor (spec §4.1: equals, not-equals, ordering comparisons,
array-contains, array-contains-any, in, not-in). -/
inductive FilterOp where
  | equal
  | notEqual
  | lessThan
  | lessThanOrEq
  | greaterThan
  | greaterThanOrEq
  | arrayContains
  | arrayContainsAny
  | inOp
  | notInOp
deriving DecidableEq, Repr

/-- The source-level operator token each `FilterOp` constructor stands for, as
the descriptor spells it. -/
def filterOpToken : FilterOp → String
  | .equal => "=="
  | .notEqual => "!="
  | .lessThan => "<"
  | .lessThanOrEq => "<="
  | .greaterThan => ">"
  | .greaterThanOrEq => ">="
  | .arrayContains => "array-contains"
  | .arrayContainsAny => "array-contains-any"
  | .inOp => "in"
  | .notInOp => "not-in"

/-- Modelled from the spec: the operator mapping from the descriptor
vocabulary to the wire protocol's own operator vocabulary (spec §4.1; the
unit tests pin `EQUAL`, `GREATER_THAN_OR_EQUAL`, `ARRAY_CONTAINS_ANY` and
`IN`; the remaining names are the wire protocol's published enum). -/
def mapOperator : FilterOp → String
  | .equal => "EQUAL"
  | .notEqual => "NOT_EQUAL"
  | .lessThan => "LESS_THAN"
  | .lessThanOrEq => "LESS_THAN_OR_EQUAL"
  | .greaterThan => "GREATER_THAN"
  | .greaterThanOrEq => "GREATER_THAN_OR_EQUAL"
  | .arrayContains => "ARRAY_CONTAINS"
  | .arrayContainsAny => "ARRAY_CONTAINS_ANY"
  | .inOp => "IN"
  | .notInOp => "NOT_IN"

/-- Modelled from the spec: an ordering direction of the query descriptor. -/
inductive Direction where
  | asc | desc
deriving DecidableEq, Repr

/-- Modelled from the spec: the direction mapping to the wire vocabulary
(spec §4.1: ascending/descending). -/
def mapDirection : Direction → String
  | .asc => "ASCENDING"
  | .desc => "DESCENDING"

/-- Modelled from the spec: the boolean combinator of a composite filter. -/
inductive CompOp where
  | andOp | orOp
deriving DecidableEq, Repr

/-- The wire spelling of a composite-filter combinator. -/
def mapCompOp : CompOp → String
  | .andOp => "AND"
  | .orOp => "OR"

/-- Modelled from the spec: a unary (nullability) filter predicate. -/
inductive UnaryOp where
  | isNull | isNotNull
deriving DecidableEq, Repr

/-- The wire spelling of a unary-filter predicate (spec §4.1: translates
directly). -/
def mapUnaryOp : UnaryOp → String
  | .isNull => "IS_NULL"
  | .isNotNull => "IS_NOT_NULL"

/-- Modelled from the spec: one plain filter clause of the query descriptor —
a field name, a comparison operator and a comparison value (spec §3). -/
structure WhereClause where
  field : String
  operator : FilterOp
  value : JSValue
deriving Repr

/-- Modelled from the spec: a filter clause or a nested composite filter
(spec §3: a composite filter combines filter clauses or nested composite
filters). -/
inductive FilterTree where
  | clause (c : WhereClause)
  | composite (op : CompOp) (filters : List FilterTree)
deriving Repr

/-- Modelled from the spec: the generic query descriptor (spec §3) — an
optional list of plain filter clauses (implicitly AND-combined), an optional
composite filter, an optional unary filter, optional ordering clauses, an
optional limit, an optional offset, an optional field projection, and an
optional collection-group flag. -/
structure QueryOptions where
  whereClauses : Option (List WhereClause)
  compositeFilter : Option (CompOp × List FilterTree)
  unaryFilter : Option (String × UnaryOp)
  orderBy : Option (List (String × Direction))
  limit : Option Int
  offset : Option Int
  select : Option (List String)
  collectionGroup : Option Bool
deriving Repr

/-- The query descriptor with every optional field absent. -/
def emptyQueryOptions : QueryOptions :=
  ⟨none, none, none, none, none, none, none, none⟩

/-- Whether an optional list field of the descriptor is populated: present
and non-empty (spec §3 invariant: an empty descriptor is indistinguishable
from no options). -/
def populatedList {α : Type} : Option (List α) → Bool
  | none => false
  | some l => !l.isEmpty

/-- Modelled from the spec: whether any field of the query descriptor is
populated — the sole input of the dispatch rule (spec §3 invariant; unit
tests `simple queries (GET request)` / `advanced queries (POST to
/runQuery)`). -/
def QueryOptions.isPopulated (o : QueryOptions) : Bool :=
  populatedList o.whereClauses || o.compositeFilter.isSome || o.unaryFilter.isSome ||
    populatedList o.orderBy || o.limit.isSome || o.offset.isSome ||
    populatedList o.select || (o.collectionGroup == some true)

/-- Modelled from the spec: one wire filter node of a structured query
(spec §6 wire shape; unit tests `advanced queries`): a
field/operator/typed-value triple, a composite combination, or a unary
predicate. -/
inductive WireFilter where
  | fieldFilter (fieldPath : String) (op : String) (value : FirestoreValue)
  | compositeFilter (op : String) (filters : List WireFilter)
  | unaryFilter (fieldPath : String) (op : String)
deriving Repr

/-- One wire ordering clause: a field path and a wire direction. -/
structure WireOrder where
  fieldPath : String
  direction : String
deriving DecidableEq, Repr

/-- The wire source descriptor of a structured query: a collection id and,
when the collection-group flag is set, `allDescendants: true` (absent
otherwise). -/
structure CollectionSelector where
  collectionId : String
  allDescendants : Option Bool
deriving DecidableEq, Repr

/-- Modelled from the spec: the `structuredQuery` JSON body of the
structured-query request — `{ structuredQuery: { from, where, orderBy,
limit, offset, select } }` (spec §6). `none` models an omitted member. -/
structure StructuredQuery where
  source : List CollectionSelector
  whereFilter : Option WireFilter
  orderBy : List WireOrder
  limit : Option Int
  offset : Option Int
  select : Option (List String)
deriving Repr

/-- Modelled from the spec: encoding one plain filter clause as a wire
field/operator/typed-value triple (spec §4.1). -/
def encodeClause (c : WhereClause) : WireFilter :=
  .fieldFilter c.field (mapOperator c.operator) (convertValue c.value)

/-- Modelled from the spec: recursive encoding of a composite filter's
tree (spec §4.1: a composite filter recursively translates its nested
clauses and combinator). -/
def encodeFilterTree : FilterTree → WireFilter
  | .clause c => encodeClause c
  | .composite op filters =>
      .compositeFilter (mapCompOp op) (filters.attach.map fun x => encodeFilterTree x.1)
decreasing_by
  have := List.sizeOf_lt_of_mem x.2
  simp only [FilterTree.composite.sizeOf_spec]
  omega

/-- Modelled from the spec: the `where` member of the structured query. A
single plain clause becomes a bare field filter; two or more plain clauses
are combined under an AND composite filter (spec §4.1); otherwise the
composite filter, then the unary filter, is encoded. The spec leaves the
combination of several simultaneous filter forms undefined (§9); this model
gives the plain clause list precedence, matching the unit tests, which
exercise one form at a time. -/
def encodeWhere (o : QueryOptions) : Option WireFilter :=
  match o.whereClauses with
  | some (c :: cs) =>
      match cs with
      | [] => some (encodeClause c)
      | _ :: _ => some (.compositeFilter "AND" ((c :: cs).map encodeClause))
  | _ =>
      match o.compositeFilter with
      | some (op, filters) =>
          some (.compositeFilter (mapCompOp op) (filters.map encodeFilterTree))
      | none =>
          match o.unaryFilter with
          | some (f, u) => some (.unaryFilter f (mapUnaryOp u))
          | none => none

/-- Modelled from the spec: building the structured-query body from the
collection name and a populated descriptor (spec §4.1): filters per
`encodeWhere`; ordering directions mapped to the wire vocabulary; limit,
offset and field selection carried through unchanged; the resource name plus
the collection-group flag become the source descriptor. -/
def buildStructuredQuery (collectionName : String) (o : QueryOptions) :
    StructuredQuery :=
  { source := [⟨collectionName,
      if o.collectionGroup == some true then some true else none⟩]
    whereFilter := encodeWhere o
    orderBy := (o.orderBy.getD []).map fun fd => ⟨fd.1, mapDirection fd.2⟩
    limit := o.limit
    offset := o.offset
    select := o.select }

/-- Whether the two-character traversal sequence `..` occurs among the
characters. -/
def hasDotDot : List Char → Bool
  | '.' :: '.' :: _ => true
  | _ :: rest => hasDotDot rest
  | [] => false

/-- Splitting a character list on `/`, accumulating the current (reversed)
segment — the character-level model of `String.split('/')`. -/
def splitSegmentsAux : List Char → List Char → List (List Char)
  | [], acc => [acc.reverse]
  | ch :: rest, acc =>
      if ch = '/' then acc.reverse :: splitSegmentsAux rest []
      else splitSegmentsAux rest (ch :: acc)

/-- The `/`-separated segments of a string. -/
def splitSegments (s : String) : List (List Char) :=
  splitSegmentsAux s.data []

/-- Modelled from the spec: validation of a collection (resource) name
(spec §4.1 fetch-collection input rules; unit tests `collection name
validation` pin the messages and their order): reject empty and
whitespace-only names, path separators and traversal sequences, and URL
query/fragment characters. -/
def validateCollectionName (name : String) : Except String Unit :=
  if name.data.isEmpty then
    .error "Collection name must be a non-empty string"
  else if name.data.all Char.isWhitespace then
    .error "Collection name cannot be empty"
  else if hasDotDot name.data || name.data.contains '/' then
    .error "Collection name cannot contain path separators or traversal sequences"
  else if name.data.contains '?' || name.data.contains '#' || name.data.contains '&' then
    .error "Collection name cannot contain URL query or fragment characters"
  else
    .ok ()

/-- Modelled from the spec: validation of a document path (spec §4.1 fetch
single-resource input rules; unit tests `document path validation` pin the
messages and their order): reject empty paths, traversal sequences, URL
query/fragment characters, odd segment counts and empty segments. -/
def validateDocumentPath (path : String) : Except String Unit :=
  if path.data.isEmpty then
    .error "Document path must be a non-empty string"
  else if path.data.all Char.isWhitespace then
    .error "Document path cannot be empty"
  else if hasDotDot path.data then
    .error "Document path cannot contain path traversal sequences"
  else if path.data.contains '?' || path.data.contains '#' || path.data.contains '&' then
    .error "Document path cannot contain URL query or fragment characters"
  else if (splitSegments path).length % 2 != 0 then
    .error "Document path must follow the pattern: collection/document"
  else if (splitSegments path).any (fun seg => seg.isEmpty) then
    .error "Document path cannot contain empty segments"
  else
    .ok ()

/-- Modelled from the spec: the two wire request shapes `getCollection` can
issue — the direct retrieval (a plain GET of the collection's listing URL)
or the structured query (a single POST of `{ structuredQuery: ... }` to the
`:runQuery` endpoint) (spec §4.1). -/
inductive CollectionRequest where
  | listDocuments (collectionName : String)
  | runQuery (query : StructuredQuery)
deriving Repr

/-- Modelled from the spec: the single request shape `getDocument` issues — a
direct GET of the document path. -/
inductive DocumentRequest where
  | getDoc (path : String)
deriving DecidableEq, Repr

/-- Modelled from the spec: the request `getCollection(name, options?)`
dispatches, or the validation error raised before any network call
(spec §4.1): after name validation, the direct-retrieval request when no
descriptor field is populated, and the structured-query request otherwise. -/
def getCollectionRequest (collectionName : String)
    (options : Option QueryOptions) : Except String CollectionRequest :=
  match validateCollectionName collectionName with
  | .error e => .error e
  | .ok _ =>
      match options with
      | none => .ok (.listDocuments collectionName)
      | some o =>
          if o.isPopulated then
            .ok (.runQuery (buildStructuredQuery collectionName o))
          else
            .ok (.listDocuments collectionName)

/-- Modelled from the spec: the request `getDocument(path)` dispatches, or
the validation error raised before any network call (spec §4.1). -/
def getDocumentRequest (path : String) : Except String DocumentRequest :=
  match validateDocumentPath path with
  | .error e => .error e
  | .ok _ => .ok (.getDoc path)

/-- Modelled from the spec: one wire document of a response — its full
resource name and its typed field map (spec §6). -/
structure WireDocument where
  name : String
  fields : List (String × FirestoreValue)
deriving Repr

/-- The last path segment of a wire document's resource name, used as the
synthetic `id` (spec §4.1 output rules). -/
def lastPathSegment (s : String) : String :=
  String.mk ((splitSegments s).getLastD [])

/-- Modelled from the spec: one decoded response document — the synthetic
`id` plus the decoded fields (spec §4.1 output rules). -/
structure DecodedDoc where
  id : String
  fields : List (String × JSValue)
deriving Repr

/-- Modelled from the spec: decoding one wire document (spec §4.1 output
rules). -/
def decodeWireDocument (d : WireDocument) : DecodedDoc :=
  ⟨lastPathSegment d.name, decodeFields d.fields⟩

/-- Modelled from the spec: one settled HTTP response of the injected fetch,
with `β` the operation-specific JSON body shape — the document list of a
listing request, the `{ document }` wrapper entries of a structured query, a
single wire document for the per-document operations (spec §6). -/
structure HttpResult (β : Type) where
  ok : Bool
  body : β

/-- One logger error call of a resource-scoped adapter operation: the log
message, the resource name (the wire context key is operation-specific, e.g.
`collectionName` for the query path) and the action tag (spec §4.1 failure
rules; unit tests `error handling`). -/
structure LogCall where
  message : String
  resourceName : String
  action : String
deriving DecidableEq, Repr

/-- The observable outcome of executing one adapter operation returning `α`:
how many outbound requests were dispatched, the logger error calls made, and
the returned value or raised error. -/
structure OpRunResult (α : Type) where
  requests : Nat
  logs : List LogCall
  result : Except String α

/-- Modelled from the spec: the single dispatch-and-handle pattern every
resource-scoped adapter operation follows (spec §4.1 failure rules, §5
single request per call with no retry or backoff, §7 flat error taxonomy).
The injected fetch is modelled by its outcome: `.error e` for a
network-level rejection, `.ok resp` for a settled HTTP response. Exactly one
request is dispatched; a network failure propagates unchanged with no log; a
non-2xx response is logged exactly once with the resource name and the
operation's action tag, then raised as the operation's generic failure; a
2xx response is decoded. -/
def adapterDispatchRun {α β : Type}
    (resourceName action logMessage failMessage : String) (decode : β → α)
    (fetchOutcome : Except String (HttpResult β)) : OpRunResult α :=
  match fetchOutcome with
  | .error e => ⟨1, [], .error e⟩
  | .ok resp =>
      if resp.ok then ⟨1, [], .ok (decode resp.body)⟩
      else ⟨1, [⟨logMessage, resourceName, action⟩], .error failMessage⟩

/-- Modelled from the spec: executing `getCollection` on the direct-retrieval
(GET listing) path — name validation before any dispatch, then the uniform
dispatch pattern decoding the returned document list (spec §4.1; the action
tag and messages follow the operation-naming scheme the unit tests pin for
the query path). -/
def getCollectionListRun (collectionName : String)
    (fetchOutcome : Except String (HttpResult (List WireDocument))) :
    OpRunResult (List DecodedDoc) :=
  match validateCollectionName collectionName with
  | .error e => ⟨0, [], .error e⟩
  | .ok _ =>
      adapterDispatchRun collectionName "get_collection"
        "Failed to get collection" "Failed to get collection"
        (fun docs => docs.map decodeWireDocument) fetchOutcome

/-- Modelled from the spec: executing `getCollection` on the structured-query
path — name validation before any dispatch, then the uniform dispatch
pattern with the `get_collection_query` action tag and the generic
`Failed to get collection` failure, decoding the non-null `{ document }`
entries (spec §4.1 failure rules, §5 no-retry; unit tests `error
handling`). -/
def getCollectionQueryRun (collectionName : String) (_o : QueryOptions)
    (fetchOutcome : Except String (HttpResult (List (Option WireDocument)))) :
    OpRunResult (List DecodedDoc) :=
  match validateCollectionName collectionName with
  | .error e => ⟨0, [], .error e⟩
  | .ok _ =>
      adapterDispatchRun collectionName "get_collection_query"
        "Failed to get collection with query" "Failed to get collection"
        (fun entries => (entries.filterMap id).map decodeWireDocument) fetchOutcome

/-- Modelled from the spec: executing `getDocument` — path validation before
any dispatch, then the uniform dispatch pattern decoding one document
(spec §4.1). -/
def getDocumentRun (path : String)
    (fetchOutcome : Except String (HttpResult WireDocument)) :
    OpRunResult DecodedDoc :=
  match validateDocumentPath path with
  | .error e => ⟨0, [], .error e⟩
  | .ok _ =>
      adapterDispatchRun path "get_document" "Failed to get document"
        "Failed to get document" decodeWireDocument fetchOutcome

/-- Modelled from the spec: executing `createDocument` — the uniform dispatch
pattern scoped to a collection name, decoding the created document
(spec §4.1 create/update/delete rules). -/
def createDocumentRun (collectionName : String)
    (fetchOutcome : Except String (HttpResult WireDocument)) :
    OpRunResult DecodedDoc :=
  adapterDispatchRun collectionName "create_document"
    "Failed to create document" "Failed to create document"
    decodeWireDocument fetchOutcome

/-- Modelled from the spec: executing `updateDocument` — the uniform dispatch
pattern scoped to a full document path, decoding the updated document
(spec §4.1 create/update/delete rules). -/
def updateDocumentRun (path : String)
    (fetchOutcome : Except String (HttpResult WireDocument)) :
    OpRunResult DecodedDoc :=
  adapterDispatchRun path "update_document" "Failed to update document"
    "Failed to update document" decodeWireDocument fetchOutcome

/-- Modelled from the spec: executing `deleteDocument` — the uniform dispatch
pattern scoped to a full document path, returning nothing on success
(spec §4.1 create/update/delete rules). -/
def deleteDocumentRun (path : String)
    (fetchOutcome : Except String (HttpResult Unit)) : OpRunResult Unit :=
  adapterDispatchRun path "delete_document" "Failed to delete document"
    "Failed to delete document" (fun _ => ()) fetchOutcome

/-- Modelled from the spec: the identity provider's HTTP response to the
token-verification request — the 2xx flag, HTTP status and status text, the
raw response-body rendering, and the subject identifiers named (spec §6
identity endpoint; unit tests `verifyAndSetIdToken`). -/
structure VerifyHttpResponse where
  ok : Bool
  status : Int
  statusText : String
  responseData : String
  users : List String
deriving DecidableEq, Repr

/-- One logger error call of the credential-verification operation, tagged
exactly as the unit tests pin it (lines 74-82): the message, the HTTP status
and status text, the response rendering, and the `verify_token` action tag.
This operation is token-scoped and carries no resource name. -/
structure VerifyLogCall where
  message : String
  status : Int
  statusText : String
  responseData : String
  action : String
deriving DecidableEq, Repr

/-- The observable outcome of one credential-verification dispatch. -/
structure VerifyRunResult where
  requests : Nat
  logs : List VerifyLogCall
  result : Except String String
deriving Repr

/-- Modelled from the spec: the verification dispatch of
`verifyAndSetIdToken` (spec §4.1 validate-credential rules; unit tests
`verifyAndSetIdToken`): exactly one request; a network failure propagates
unchanged with no log; a non-2xx response is logged once with the
`verify_token` action tag and raised as `Failed to verify ID token`; a 2xx
response naming zero subjects raises the no-user error; otherwise the first
subject identifier is resolved. -/
def verifyTokenRun (fetchOutcome : Except String VerifyHttpResponse) :
    VerifyRunResult :=
  match fetchOutcome with
  | .error e => ⟨1, [], .error e⟩
  | .ok resp =>
      if resp.ok then
        match resp.users with
        | [] => ⟨1, [], .error "No user found for the provided token"⟩
        | u :: _ => ⟨1, [], .ok u⟩
      else
        ⟨1, [⟨"Firebase token verification failed", resp.status, resp.statusText,
          resp.responseData, "verify_token"⟩], .error "Failed to verify ID token"⟩

/-- Modelled from the spec: the identity provider's verification response —
the 2xx flag and the returned subject identifiers (`users[i].localId`)
(spec §4.1 validate-credential rules; §6 identity endpoint). -/
structure VerifyResponse where
  ok : Bool
  users : List String
deriving DecidableEq, Repr

/-- JavaScript truthiness of the adapter's stored token: absent and empty
tokens are falsy. -/
def tokenPresent : Option String → Bool
  | none => false
  | some s => !s.isEmpty

/-- Modelled from the spec: `getUid` — the cached subject identifier, or the
distinguishable not-yet-validated error (unit tests pin the message). -/
def getUid (cachedUid : Option String) : Except String String :=
  match cachedUid with
  | some u => .ok u
  | none => .error "ID token has not been validated yet. Call validateIdToken() first."

/-- The observable outcome of one credential validation: the number of
verification requests dispatched, the cached identifier afterwards, and
success or the raised error. -/
structure VerifyOutcome where
  requests : Nat
  newUid : Option String
  result : Except String Unit
deriving Repr

/-- Modelled from the spec: `validateIdToken` — with no (or an empty) token,
succeed trivially with no identity resolved and no request; with a token,
dispatch one verification request: on a 2xx response naming at least one
subject, cache the first subject identifier; on a non-2xx response or a 2xx
response naming zero subjects, raise the descriptive error and cache nothing
(spec §4.1 validate-credential rules; unit tests pin the messages). -/
def validateIdToken (cachedUid : Option String) (idToken : Option String)
    (resp : VerifyResponse) : VerifyOutcome :=
  if tokenPresent idToken then
    if resp.ok then
      match resp.users with
      | [] => ⟨1, cachedUid, .error "No user found for the provided token"⟩
      | u :: _ => ⟨1, some u, .ok ()⟩
    else ⟨1, cachedUid, .error "Failed to verify ID token"⟩
  else ⟨0, cachedUid, .ok ()⟩

/-- A sample filter clause used by closed witnesses. -/
def sampleClause : WhereClause := ⟨"category", .equal, .str "fiction"⟩

/-- A sample populated query descriptor (one plain filter clause) used by
closed witnesses. -/
def sampleOptions : QueryOptions :=
  ⟨some [sampleClause], none, none, none, none, none, none, none⟩

/-- Any value produced by the serializer is a flat primitive. -/
theorem serializeLogValue_isPrim (v w : LogValue)
    (h : serializeLogValue v = some w) : w.isPrim = true := by
  cases v <;> simp [serializeLogValue] at h <;> simp [← h, LogValue.isPrim]

/-- The empty string is falsy. -/
theorem truthyStr_some_empty : truthyStr (some "") = false := by decide

/-- C8 counterexample: the claim says the resolver returns the
context-environment value whenever one is present. With the context value
present but equal to the empty string, `getServerEnv` returns the
process-environment value instead, not the context value. -/
theorem c8_counterexample :
    ctxEmptyProjectId "FIREBASE_PROJECT_ID" = some "" ∧
    (getServerEnv ctxEmptyProjectId true procProjectId).FIREBASE_PROJECT_ID =
      some "proc-project" ∧
    (getServerEnv ctxEmptyProjectId true procProjectId).FIREBASE_PROJECT_ID ≠
      ctxEmptyProjectId "FIREBASE_PROJECT_ID" := by
  refine ⟨rfl, rfl, ?_⟩
  intro h
  simp [getServerEnv, getEnvVar, ctxEmptyProjectId, procProjectId, truthyStr,
    truthyStr_some_empty] at h
  exact absurd h (by decide)

/-- C8 (amended): for every key, the resolver returns the context-environment
value when a truthy (non-empty) one is present, and falls back to the
process-environment value otherwise — first-truthy-wins with the context
source first; `getServerEnv` and `getClientEnv` resolve every key through
exactly this rule. -/
theorem c8_env_source_priority (contextEnv processEnv : EnvSource)
    (processAvailable : Bool) (key : String) :
    (truthyStr (contextEnv key) = true →
      getEnvVar contextEnv processAvailable processEnv key = contextEnv key) ∧
    (truthyStr (contextEnv key) = false →
      getEnvVar contextEnv processAvailable processEnv key =
        if processAvailable then processEnv key else none) ∧
    (getServerEnv contextEnv processAvailable processEnv).FIREBASE_PROJECT_ID =
      getEnvVar contextEnv processAvailable processEnv "FIREBASE_PROJECT_ID" ∧
    (getClientEnvRaw contextEnv processAvailable processEnv).firebaseConfigRaw =
      getEnvVar contextEnv processAvailable processEnv "FIREBASE_CONFIG" := by
  refine ⟨fun h => ?_, fun h => ?_, rfl, rfl⟩ <;> simp [getEnvVar, h]

/-- Closed witness for `c8_env_source_priority` at a concrete context/process
pair with a truthy context value. -/
theorem c8_env_source_priority_witness :
    truthyStr (ctxEmptyProjectId "APP_NAME") = false ∧
    getEnvVar ctxEmptyProjectId true procProjectId "APP_NAME" =
      (if true then procProjectId "APP_NAME" else none) :=
  ⟨by decide, ((c8_env_source_priority ctxEmptyProjectId procProjectId true
      "APP_NAME").2).1 (by decide)⟩

/-- C10: a key whose context-environment value is the empty string (the only
falsy string) is treated as unset: the resolver returns the
process-environment value instead — first-truthy-wins, not first-defined-wins.
Stated for the shared per-key resolver and for the `FIREBASE_PROJECT_ID` field
of `getServerEnv` and the raw `FIREBASE_CONFIG` resolution of `getClientEnv`. -/
theorem c10_falsy_context_value_falls_back (contextEnv processEnv : EnvSource)
    (key : String) (h : contextEnv key = some "") :
    getEnvVar contextEnv true processEnv key = processEnv key ∧
    (contextEnv "FIREBASE_PROJECT_ID" = some "" →
      (getServerEnv contextEnv true processEnv).FIREBASE_PROJECT_ID =
        processEnv "FIREBASE_PROJECT_ID") ∧
    (contextEnv "FIREBASE_CONFIG" = some "" →
      (getClientEnvRaw contextEnv true processEnv).firebaseConfigRaw =
        processEnv "FIREBASE_CONFIG") := by
  refine ⟨?_, fun h2 => ?_, fun h3 => ?_⟩
  · simp [getEnvVar, h, truthyStr_some_empty]
  · simp [getServerEnv, getEnvVar, h2, truthyStr_some_empty]
  · simp [getClientEnvRaw, getEnvVar, h3, truthyStr_some_empty]

/-- Closed witness for `c10_falsy_context_value_falls_back` at the concrete
empty-string context value. -/
theorem c10_falsy_context_value_falls_back_witness :
    ctxEmptyProjectId "FIREBASE_PROJECT_ID" = some "" ∧
    getEnvVar ctxEmptyProjectId true procProjectId "FIREBASE_PROJECT_ID" =
      procProjectId "FIREBASE_PROJECT_ID" :=
  ⟨by decide, (c10_falsy_context_value_falls_back ctxEmptyProjectId procProjectId
      "FIREBASE_PROJECT_ID" (by decide)).1⟩

/-- C9: for every log call with a context map, the logger's serialization
produces a flat map containing only string, number or boolean values; an
`Error` value is replaced by its message string, a `Date` value by its
ISO-8601 string, and object or array values by their `JSON.stringify`
rendering, before the entry is emitted. -/
theorem c9_logger_serialization (context : List (String × LogValue)) :
    (∀ k v, (k, v) ∈ serializeLogContext context → v.isPrim = true) ∧
    (∀ m, serializeLogValue (.err m) = some (.str m)) ∧
    (∀ iso, serializeLogValue (.date iso) = some (.str iso)) ∧
    (∀ fields, serializeLogValue (.obj fields) =
      some (.str (jsonStringify (.obj fields)))) ∧
    (∀ items, serializeLogValue (.arr items) =
      some (.str (jsonStringify (.arr items)))) ∧
    serializeLogContext context =
      context.filterMap (fun kv => (serializeLogValue kv.2).map fun v => (kv.1, v)) := by
  refine ⟨?_, fun m => rfl, fun iso => rfl, fun fields => rfl, fun items => rfl, rfl⟩
  intro k v hv
  simp only [serializeLogContext, List.mem_filterMap, Option.map_eq_some'] at hv
  obtain ⟨kv, _, w, hw, hkv⟩ := hv
  cases hkv
  exact serializeLogValue_isPrim kv.2 v hw

/-- Closed witness for `c9_logger_serialization` at a one-entry context holding
an `Error` value. -/
theorem c9_logger_serialization_witness :
    ("error", LogValue.str "boom") ∈
      serializeLogContext [("error", LogValue.err "boom")] ∧
    (LogValue.str "boom").isPrim = true :=
  ⟨by simp [serializeLogContext, serializeLogValue],
    (c9_logger_serialization [("error", LogValue.err "boom")]).1 "error"
      (LogValue.str "boom")
      (by simp [serializeLogContext, serializeLogValue])⟩

/-- Equation for `convertValue` on an array, with the `attach` bookkeeping removed. -/
theorem convertValue_arr (items : List JSValue) :
    convertValue (.arr items) = .arrayValue (items.map convertValue) := by
  rw [convertValue]
  simp [List.attach_map_val]

/-- Equation for `convertValue` on a plain object, with the `attach` bookkeeping removed. -/
theorem convertValue_obj (fields : List (String × JSValue)) :
    convertValue (.obj fields) =
      .mapValue (fields.map fun kv => (kv.1, convertValue kv.2)) := by
  rw [convertValue]
  exact congrArg FirestoreValue.mapValue
    (List.attach_map_val fields fun kv => (kv.1, convertValue kv.2))

/-- Equation for `decodeValue` on an array, with the `attach` bookkeeping removed. -/
theorem decodeValue_arr (values : List FirestoreValue) :
    decodeValue (.arrayValue values) = .arr (values.map decodeValue) := by
  rw [decodeValue]
  simp [List.attach_map_val]

/-- Equation for `decodeValue` on a field map, with the `attach` bookkeeping removed. -/
theorem decodeValue_map (fields : List (String × FirestoreValue)) :
    decodeValue (.mapValue fields) =
      .obj (fields.map fun kv => (kv.1, decodeValue kv.2)) := by
  rw [decodeValue]
  exact congrArg JSValue.obj
    (List.attach_map_val fields fun kv => (kv.1, decodeValue kv.2))

/-- Equation for `roundTripImage` on an array, with the `attach` bookkeeping removed. -/
theorem roundTripImage_arr (items : List JSValue) :
    roundTripImage (.arr items) = .arr (items.map roundTripImage) := by
  rw [roundTripImage]
  simp [List.attach_map_val]

/-- Equation for `roundTripImage` on a plain object, with the `attach` bookkeeping removed. -/
theorem roundTripImage_obj (fields : List (String × JSValue)) :
    roundTripImage (.obj fields) =
      .obj (fields.map fun kv => (kv.1, roundTripImage kv.2)) := by
  rw [roundTripImage]
  exact congrArg JSValue.obj
    (List.attach_map_val fields fun kv => (kv.1, roundTripImage kv.2))

/-- Membership form of `SupportedValue` on an array. -/
theorem SupportedValue_arr (items : List JSValue) :
    SupportedValue (.arr items) = true ↔ ∀ v ∈ items, SupportedValue v = true := by
  rw [SupportedValue]
  simp [List.all_eq_true]

/-- Membership form of `SupportedValue` on a plain object. -/
theorem SupportedValue_obj (fields : List (String × JSValue)) :
    SupportedValue (.obj fields) = true ↔
      ∀ kv ∈ fields, SupportedValue kv.2 = true := by
  rw [SupportedValue]
  simp [List.all_eq_true]

/-- Structural induction principle for `JSValue` giving membership induction
hypotheses through the nested lists. -/
theorem JSValue.member_induct (motive : JSValue → Prop)
    (hundef : motive .undef) (hnull : motive .null)
    (hdate : ∀ iso, motive (.date iso))
    (harr : ∀ items, (∀ v ∈ items, motive v) → motive (.arr items))
    (hobj : ∀ fields, (∀ kv ∈ fields, motive kv.2) → motive (.obj fields))
    (hbool : ∀ b, motive (.bool b))
    (hnum : ∀ isInteger render, motive (.num isInteger render))
    (hstr : ∀ s, motive (.str s))
    (hother : motive .other) : ∀ v, motive v := by
  have H : ∀ n, ∀ v : JSValue, sizeOf v ≤ n → motive v := by
    intro n
    induction n with
    | zero =>
      intro v hv
      cases v <;> simp at hv
    | succ n ih =>
      intro v hv
      cases v with
      | undef => exact hundef
      | null => exact hnull
      | date iso => exact hdate iso
      | arr items =>
        refine harr items fun x hx => ih x ?_
        have := List.sizeOf_lt_of_mem hx
        simp only [JSValue.arr.sizeOf_spec] at hv
        omega
      | obj fields =>
        refine hobj fields fun kv hkv => ih kv.2 ?_
        have := List.sizeOf_lt_of_mem hkv
        rcases kv with ⟨k, w⟩
        simp only [Prod.mk.sizeOf_spec] at this
        simp only [JSValue.obj.sizeOf_spec] at hv
        simp only []
        omega
      | bool b => exact hbool b
      | num isInteger render => exact hnum isInteger render
      | str s => exact hstr s
      | other => exact hother
  exact fun v => H (sizeOf v) v (Nat.le_refl _)

/-- Encode-then-decode acts as `roundTripImage` on every supported value. -/
theorem decode_convert_eq (v : JSValue) (hv : SupportedValue v = true) :
    decodeValue (convertValue v) = roundTripImage v := by
  induction v using JSValue.member_induct with
  | hundef => simp [convertValue, decodeValue, roundTripImage]
  | hnull => simp [convertValue, decodeValue, roundTripImage]
  | hdate iso => simp [convertValue, decodeValue, roundTripImage]
  | harr items ih =>
    rw [convertValue_arr, decodeValue_arr, roundTripImage_arr, List.map_map]
    refine congrArg JSValue.arr (List.map_congr_left fun x hx => ?_)
    exact ih x hx ((SupportedValue_arr items).mp hv x hx)
  | hobj fields ih =>
    rw [convertValue_obj, decodeValue_map, roundTripImage_obj, List.map_map]
    refine congrArg JSValue.obj (List.map_congr_left fun kv hkv => ?_)
    simp only [Function.comp_apply]
    exact congrArg (Prod.mk kv.1)
      (ih kv hkv ((SupportedValue_obj fields).mp hv kv hkv))
  | hbool b => simp [convertValue, decodeValue, roundTripImage]
  | hnum isInteger render =>
    cases isInteger <;> simp [convertValue, decodeValue, roundTripImage]
  | hstr s => simp [convertValue, decodeValue, roundTripImage]
  | hother => exact absurd hv (by simp [SupportedValue])

/-- C3 counterexample: the claim says an integer-valued number is stored as a
string of digits. At the integer-valued number whose JavaScript rendering is
`'1.7976931348623157e+308'` (pinned by the repository's unit test
`should handle large numbers correctly`), the integer marker's payload is that
scientific-notation rendering, which is not a string of digits (even allowing
a leading sign). -/
theorem c3_counterexample :
    convertValue (.num true "1.7976931348623157e+308") =
      .integerValue "1.7976931348623157e+308" ∧
    "1.7976931348623157e+308".toList.all (fun c => c.isDigit || c = '-') = false := by
  exact ⟨by rw [convertValue], by decide⟩

/-- C3 (amended): the value-to-wire-encoding classifies every input by the
stated precedence — null/undefined to a null marker, a Date to its ISO-8601
timestamp string, an array to an ordered list of recursively converted
values, a plain object to a recursively converted field map, a boolean to a
boolean marker, an integer-valued number to an integer marker, a non-integer
number to a floating-point marker, a string to a string marker, and any other
type to the fixed `unsupported_type` string sentinel — where the integer
marker stores the number's JavaScript string rendering (scientific notation
for very large magnitudes), not necessarily a string of digits. -/
theorem c3_value_type_mapping :
    convertValue .undef = .nullValue ∧
    convertValue .null = .nullValue ∧
    (∀ iso, convertValue (.date iso) = .timestampValue iso) ∧
    (∀ items, convertValue (.arr items) = .arrayValue (items.map convertValue)) ∧
    (∀ fields, convertValue (.obj fields) =
      .mapValue (fields.map fun kv => (kv.1, convertValue kv.2))) ∧
    (∀ b, convertValue (.bool b) = .booleanValue b) ∧
    (∀ render, convertValue (.num true render) = .integerValue render) ∧
    (∀ render, convertValue (.num false render) = .doubleValue render) ∧
    (∀ s, convertValue (.str s) = .stringValue s) ∧
    convertValue .other = .stringValue "unsupported_type" := by
  refine ⟨by rw [convertValue], by rw [convertValue], fun iso => by rw [convertValue],
    convertValue_arr, convertValue_obj, fun b => by rw [convertValue],
    fun render => by rw [convertValue], fun render => by rw [convertValue],
    fun s => by rw [convertValue], by rw [convertValue]⟩

/-- C4 counterexample: the claim says every supported field value — ISO-8601
dates included — is reproduced exactly by encode-then-decode. A `Date` value
encodes to a timestamp and decodes to its ISO-8601 *string*, which is not the
original `Date` value. -/
theorem c4_counterexample :
    decodeValue (convertValue (.date "2023-12-01T10:30:00.000Z")) =
      JSValue.str "2023-12-01T10:30:00.000Z" ∧
    JSValue.str "2023-12-01T10:30:00.000Z" ≠
      JSValue.date "2023-12-01T10:30:00.000Z" := by
  refine ⟨by rw [convertValue, decodeValue], by simp⟩

/-- C4 (amended): for every plain object whose field values are supported
(string, integer- or non-integer-valued number, boolean, null, array, nested
object, Date), converting to the wire encoding and decoding back reproduces
the original value for each field, except that `undefined` fields round-trip
as explicit `null` and `Date` fields round-trip as their ISO-8601 string. -/
theorem c4_roundtrip (v : JSValue) (doc : List (String × JSValue))
    (hv : SupportedValue v = true)
    (hdoc : ∀ kv ∈ doc, SupportedValue kv.2 = true) :
    decodeValue (convertValue v) = roundTripImage v ∧
    decodeFields (convertToFirestoreDocument doc).fields =
      doc.map (fun kv => (kv.1, roundTripImage kv.2)) ∧
    (∀ s, roundTripImage (.str s) = .str s) ∧
    (∀ isInteger render, roundTripImage (.num isInteger render) =
      .num isInteger render) ∧
    (∀ b, roundTripImage (.bool b) = .bool b) ∧
    roundTripImage .null = .null ∧
    roundTripImage .undef = .null ∧
    (∀ iso, roundTripImage (.date iso) = .str iso) ∧
    (∀ items, roundTripImage (.arr items) = .arr (items.map roundTripImage)) ∧
    (∀ fields, roundTripImage (.obj fields) =
      .obj (fields.map fun kv => (kv.1, roundTripImage kv.2))) := by
  refine ⟨decode_convert_eq v hv, ?_, fun s => by rw [roundTripImage],
    fun isInteger render => by rw [roundTripImage], fun b => by rw [roundTripImage],
    by rw [roundTripImage], by rw [roundTripImage], fun iso => by rw [roundTripImage],
    roundTripImage_arr, roundTripImage_obj⟩
  unfold decodeFields convertToFirestoreDocument
  simp only [List.map_map]
  refine List.map_congr_left fun kv hkv => ?_
  simp only [Function.comp_apply]
  exact congrArg (Prod.mk kv.1) (decode_convert_eq kv.2 (hdoc kv hkv))

/-- Closed witness for `c4_roundtrip` at a concrete document holding a string,
an integer, a null and an undefined field. -/
theorem c4_roundtrip_witness :
    SupportedValue (.str "Test") = true ∧
    (∀ kv ∈ [("title", JSValue.str "Test"), ("year", JSValue.num true "2023"),
      ("description", JSValue.null), ("notIncluded", JSValue.undef)],
      SupportedValue kv.2 = true) ∧
    decodeFields (convertToFirestoreDocument
      [("title", JSValue.str "Test"), ("year", JSValue.num true "2023"),
        ("description", JSValue.null), ("notIncluded", JSValue.undef)]).fields =
      [("title", JSValue.str "Test"), ("year", JSValue.num true "2023"),
        ("description", JSValue.null), ("notIncluded", JSValue.null)] :=
  have h1 : SupportedValue (.str "Test") = true := by rw [SupportedValue]
  have h2 : ∀ kv ∈ [("title", JSValue.str "Test"), ("year", JSValue.num true "2023"),
      ("description", JSValue.null), ("notIncluded", JSValue.undef)],
      SupportedValue kv.2 = true := by
    intro kv hkv
    simp only [List.mem_cons, List.not_mem_nil, or_false] at hkv
    rcases hkv with h | h | h | h <;> subst h <;> rw [SupportedValue]
  ⟨h1, h2, by
    rw [(c4_roundtrip (.str "Test") [("title", JSValue.str "Test"),
      ("year", JSValue.num true "2023"), ("description", JSValue.null),
      ("notIncluded", JSValue.undef)] h1 h2).2.1]
    simp only [List.map]
    rw [roundTripImage, roundTripImage, roundTripImage, roundTripImage]⟩

/-- C1: with a valid name, `getCollection` issues the direct-retrieval
request when the descriptor is absent or has no populated field, and exactly
the structured-query request when at least one field is populated; the choice
reads nothing but the populated-field test, whose unfolding over the
descriptor's fields is stated last. -/
theorem c1_collection_dispatch (collectionName : String) (o : QueryOptions)
    (hvalid : validateCollectionName collectionName = .ok ()) :
    getCollectionRequest collectionName none =
      .ok (.listDocuments collectionName) ∧
    (o.isPopulated = false →
      getCollectionRequest collectionName (some o) =
        .ok (.listDocuments collectionName)) ∧
    (o.isPopulated = true →
      getCollectionRequest collectionName (some o) =
        .ok (.runQuery (buildStructuredQuery collectionName o))) ∧
    o.isPopulated =
      (populatedList o.whereClauses || o.compositeFilter.isSome ||
        o.unaryFilter.isSome || populatedList o.orderBy || o.limit.isSome ||
        o.offset.isSome || populatedList o.select ||
        (o.collectionGroup == some true)) := by
  refine ⟨?_, fun h => ?_, fun h => ?_, rfl⟩
  · simp [getCollectionRequest, hvalid]
  · simp [getCollectionRequest, hvalid, h]
  · simp [getCollectionRequest, hvalid, h]

/-- Closed witness for `c1_collection_dispatch`: the empty descriptor gives
the plain listing request, the sample populated descriptor gives the
structured-query request. -/
theorem c1_collection_dispatch_witness :
    validateCollectionName "books" = .ok () ∧
    emptyQueryOptions.isPopulated = false ∧
    sampleOptions.isPopulated = true ∧
    getCollectionRequest "books" (some emptyQueryOptions) =
      .ok (.listDocuments "books") ∧
    getCollectionRequest "books" (some sampleOptions) =
      .ok (.runQuery (buildStructuredQuery "books" sampleOptions)) :=
  have hv : validateCollectionName "books" = .ok () := rfl
  ⟨hv, rfl, rfl,
    (c1_collection_dispatch "books" emptyQueryOptions hv).2.1 rfl,
    (c1_collection_dispatch "books" sampleOptions hv).2.2.1 rfl⟩

/-- C2: the structured-query body is a deterministic encoding of the
descriptor — each clause a field/operator/typed-value triple with the
operator taken from the fixed source vocabulary to the wire vocabulary, two
or more plain clauses combined under an AND composite filter, directions
mapped asc/desc to ASCENDING/DESCENDING, limit, offset and field selection
carried unchanged, and the collection-group flag yielding a source descriptor
with `allDescendants` set — and a populated descriptor yields exactly the one
structured-query request carrying that body. -/
theorem c2_structured_query_body (collectionName : String) (o : QueryOptions)
    (c c2 : WhereClause) (cs : List WhereClause) :
    (filterOpToken .equal = "==" ∧ mapOperator .equal = "EQUAL") ∧
    (filterOpToken .notEqual = "!=" ∧ mapOperator .notEqual = "NOT_EQUAL") ∧
    (filterOpToken .lessThan = "<" ∧ mapOperator .lessThan = "LESS_THAN") ∧
    (filterOpToken .lessThanOrEq = "<=" ∧ mapOperator .lessThanOrEq = "LESS_THAN_OR_EQUAL") ∧
    (filterOpToken .greaterThan = ">" ∧ mapOperator .greaterThan = "GREATER_THAN") ∧
    (filterOpToken .greaterThanOrEq = ">=" ∧ mapOperator .greaterThanOrEq = "GREATER_THAN_OR_EQUAL") ∧
    (filterOpToken .arrayContains = "array-contains" ∧
      mapOperator .arrayContains = "ARRAY_CONTAINS") ∧
    (filterOpToken .arrayContainsAny = "array-contains-any" ∧
      mapOperator .arrayContainsAny = "ARRAY_CONTAINS_ANY") ∧
    (filterOpToken .inOp = "in" ∧ mapOperator .inOp = "IN") ∧
    (filterOpToken .notInOp = "not-in" ∧ mapOperator .notInOp = "NOT_IN") ∧
    encodeClause c =
      .fieldFilter c.field (mapOperator c.operator) (convertValue c.value) ∧
    (o.whereClauses = some [c] →
      (buildStructuredQuery collectionName o).whereFilter =
        some (encodeClause c)) ∧
    (o.whereClauses = some (c :: c2 :: cs) →
      (buildStructuredQuery collectionName o).whereFilter =
        some (.compositeFilter "AND" ((c :: c2 :: cs).map encodeClause))) ∧
    mapDirection .asc = "ASCENDING" ∧
    mapDirection .desc = "DESCENDING" ∧
    (buildStructuredQuery collectionName o).orderBy =
      (o.orderBy.getD []).map (fun fd => ⟨fd.1, mapDirection fd.2⟩) ∧
    (buildStructuredQuery collectionName o).limit = o.limit ∧
    (buildStructuredQuery collectionName o).offset = o.offset ∧
    (buildStructuredQuery collectionName o).select = o.select ∧
    (o.collectionGroup = some true →
      (buildStructuredQuery collectionName o).source =
        [⟨collectionName, some true⟩]) ∧
    (o.collectionGroup ≠ some true →
      (buildStructuredQuery collectionName o).source =
        [⟨collectionName, none⟩]) ∧
    (o.isPopulated = true → validateCollectionName collectionName = .ok () →
      getCollectionRequest collectionName (some o) =
        .ok (.runQuery (buildStructuredQuery collectionName o))) := by
  refine ⟨⟨rfl, rfl⟩, ⟨rfl, rfl⟩, ⟨rfl, rfl⟩, ⟨rfl, rfl⟩, ⟨rfl, rfl⟩, ⟨rfl, rfl⟩,
    ⟨rfl, rfl⟩, ⟨rfl, rfl⟩, ⟨rfl, rfl⟩, ⟨rfl, rfl⟩, rfl, fun h => ?_, fun h => ?_,
    rfl, rfl, rfl, rfl, rfl, rfl, fun h => ?_, fun h => ?_, fun hp hv => ?_⟩
  · simp [buildStructuredQuery, encodeWhere, h]
  · simp [buildStructuredQuery, encodeWhere, h]
  · simp [buildStructuredQuery, h]
  · simp only [buildStructuredQuery]
    rw [beq_eq_false_iff_ne.mpr h]
    simp
  · simp [getCollectionRequest, hv, hp]

/-- Closed witness for `c2_structured_query_body` at the sample descriptor:
the single-clause body and the dispatched request. -/
theorem c2_structured_query_body_witness :
    sampleOptions.whereClauses = some [sampleClause] ∧
    (buildStructuredQuery "books" sampleOptions).whereFilter =
      some (encodeClause sampleClause) ∧
    getCollectionRequest "books" (some sampleOptions) =
      .ok (.runQuery (buildStructuredQuery "books" sampleOptions)) :=
  have h := c2_structured_query_body "books" sampleOptions sampleClause sampleClause []
  ⟨rfl, h.2.2.2.2.2.2.2.2.2.2.2.1 rfl,
    h.2.2.2.2.2.2.2.2.2.2.2.2.2.2.2.2.2.2.2.2.2 rfl rfl⟩

/-- Every collection name of the claim's bad set is rejected by
`validateCollectionName`. -/
theorem validateCollectionName_error (name : String)
    (hbad : hasDotDot name.data = true ∨ name.data.contains '/' = true ∨
      name.data.contains '?' = true ∨ name.data.contains '#' = true ∨
      name.data.contains '&' = true ∨ name.data.all Char.isWhitespace = true) :
    ∃ e, validateCollectionName name = .error e := by
  unfold validateCollectionName
  split_ifs with h1 h2 h3 h4
  · exact ⟨_, rfl⟩
  · exact ⟨_, rfl⟩
  · exact ⟨_, rfl⟩
  · exact ⟨_, rfl⟩
  · exfalso
    simp only [Bool.or_eq_true] at h3 h4
    rcases hbad with h | h | h | h | h | h <;> simp_all

/-- Every document path of the claim's bad set is rejected by
`validateDocumentPath`. -/
theorem validateDocumentPath_error (path : String)
    (hbad : (splitSegments path).length % 2 = 1 ∨
      (∃ seg ∈ splitSegments path, seg.isEmpty = true) ∨
      hasDotDot path.data = true ∨ path.data.contains '?' = true ∨
      path.data.contains '#' = true ∨ path.data.contains '&' = true) :
    ∃ e, validateDocumentPath path = .error e := by
  unfold validateDocumentPath
  split_ifs with h1 h2 h3 h4 h5 h6
  · exact ⟨_, rfl⟩
  · exact ⟨_, rfl⟩
  · exact ⟨_, rfl⟩
  · exact ⟨_, rfl⟩
  · exact ⟨_, rfl⟩
  · exact ⟨_, rfl⟩
  · exfalso
    simp only [Bool.or_eq_true, bne_iff_ne, ne_eq, List.any_eq_true] at h4 h5 h6
    rcases hbad with h | h | h | h | h | h
    · omega
    · exact h6 h
    · exact h3 h
    · exact h4 (Or.inl (Or.inl h))
    · exact h4 (Or.inl (Or.inr h))
    · exact h4 (Or.inr h)

/-- C5: a fetch-collection call whose name contains `..`, `/`, `?`, `#` or
`&`, or is empty or whitespace-only, and a fetch-single-resource call whose
path has an odd number of segments, an empty segment, or traversal or query
metacharacters, each raise a validation error before any network call: no
request value is ever produced and the execution models dispatch zero
requests. -/
theorem c5_validation_before_network (name path : String)
    (options : Option QueryOptions) (o : QueryOptions)
    (fetchC : Except String (HttpResult (List (Option WireDocument))))
    (fetchD : Except String (HttpResult WireDocument))
    (hname : hasDotDot name.data = true ∨ name.data.contains '/' = true ∨
      name.data.contains '?' = true ∨ name.data.contains '#' = true ∨
      name.data.contains '&' = true ∨ name.data.all Char.isWhitespace = true)
    (hpath : (splitSegments path).length % 2 = 1 ∨
      (∃ seg ∈ splitSegments path, seg.isEmpty = true) ∨
      hasDotDot path.data = true ∨ path.data.contains '?' = true ∨
      path.data.contains '#' = true ∨ path.data.contains '&' = true) :
    (∃ e, validateCollectionName name = .error e) ∧
    (∃ e, getCollectionRequest name options = .error e) ∧
    (getCollectionQueryRun name o fetchC).requests = 0 ∧
    (∃ e, validateDocumentPath path = .error e) ∧
    (∃ e, getDocumentRequest path = .error e) ∧
    (getDocumentRun path fetchD).requests = 0 := by
  obtain ⟨e1, he1⟩ := validateCollectionName_error name hname
  obtain ⟨e2, he2⟩ := validateDocumentPath_error path hpath
  refine ⟨⟨e1, he1⟩, ⟨e1, ?_⟩, ?_, ⟨e2, he2⟩, ⟨e2, ?_⟩, ?_⟩ <;>
    simp [getCollectionRequest, getCollectionQueryRun, getDocumentRequest,
      getDocumentRun, he1, he2]

/-- Closed witness for `c5_validation_before_network` at a name with a query
metacharacter and a path with an odd segment count. -/
theorem c5_validation_before_network_witness :
    ("books?admin=true".data.contains '?' = true) ∧
    ((splitSegments "books/book123/subcol").length % 2 = 1) ∧
    (getCollectionQueryRun "books?admin=true" emptyQueryOptions
      (.error "unreached")).requests = 0 ∧
    (getDocumentRun "books/book123/subcol" (.error "unreached")).requests = 0 :=
  have h := c5_validation_before_network "books?admin=true" "books/book123/subcol"
    none emptyQueryOptions (.error "unreached") (.error "unreached")
    (Or.inr (Or.inr (Or.inl (by decide))))
    (Or.inl (by decide))
  ⟨by decide, by decide, h.2.2.1, h.2.2.2.2.2⟩

/-- C6: the cached-identity lifecycle — `getUid` before any successful
validation raises the distinguishable not-yet-validated error; validation
with no token succeeds trivially, dispatching no request and resolving no
identity; a successful validation caches the first subject identifier of the
response, which `getUid` then returns; and a failed validation (non-2xx, or
2xx naming zero subjects) raises its descriptive error and caches nothing,
leaving the prior cached state (so `getUid` still raises when nothing had
been cached). -/
theorem c6_identity_lifecycle (cachedUid idToken : Option String)
    (resp : VerifyResponse) (u : String) (rest : List String)
    (htok : tokenPresent idToken = true) :
    getUid none =
      .error "ID token has not been validated yet. Call validateIdToken() first." ∧
    (∀ uid0 r0, validateIdToken uid0 none r0 = ⟨0, uid0, .ok ()⟩) ∧
    (resp.ok = true → resp.users = u :: rest →
      validateIdToken cachedUid idToken resp = ⟨1, some u, .ok ()⟩ ∧
      getUid (some u) = .ok u) ∧
    (resp.ok = false →
      validateIdToken cachedUid idToken resp =
        ⟨1, cachedUid, .error "Failed to verify ID token"⟩) ∧
    (resp.ok = true → resp.users = [] →
      validateIdToken cachedUid idToken resp =
        ⟨1, cachedUid, .error "No user found for the provided token"⟩) := by
  refine ⟨rfl, fun uid0 r0 => rfl, fun hok husers => ⟨?_, rfl⟩, fun hok => ?_,
    fun hok husers => ?_⟩
  · simp [validateIdToken, htok, hok, husers]
  · simp [validateIdToken, htok, hok]
  · simp [validateIdToken, htok, hok, husers]

/-- Closed witness for `c6_identity_lifecycle` at the concrete token and
responses of the unit tests. -/
theorem c6_identity_lifecycle_witness :
    tokenPresent (some "test-token") = true ∧
    validateIdToken none (some "test-token") ⟨true, ["test-user-id"]⟩ =
      ⟨1, some "test-user-id", .ok ()⟩ ∧
    getUid (some "test-user-id") = .ok "test-user-id" ∧
    validateIdToken none (some "test-token") ⟨false, []⟩ =
      ⟨1, none, .error "Failed to verify ID token"⟩ ∧
    validateIdToken none (some "test-token") ⟨true, []⟩ =
      ⟨1, none, .error "No user found for the provided token"⟩ :=
  have h := c6_identity_lifecycle none (some "test-token")
    ⟨true, ["test-user-id"]⟩ "test-user-id" [] (by decide)
  have h2 := c6_identity_lifecycle none (some "test-token") ⟨false, []⟩
    "u" [] (by decide)
  have h3 := c6_identity_lifecycle none (some "test-token") ⟨true, []⟩
    "u" [] (by decide)
  ⟨by decide, (h.2.2.1 rfl rfl).1, (h.2.2.1 rfl rfl).2, h2.2.2.2.1 rfl,
    h3.2.2.2.2 rfl rfl⟩

/-- C7: every adapter operation follows the single dispatch-and-handle
pattern, under which a non-2xx response produces exactly one logger error
call — tagged with the resource name and the operation's action tag —
followed by the thrown generic operation-failed error, with exactly one
outbound request and zero retries, while a network-level rejection of the
injected fetch propagates to the caller unchanged with no log call. The
pattern is proved once for every resource name, action tag and decoder, and
each modelled operation — collection listing, structured query, document
fetch, create, update, delete — is shown to dispatch through exactly that
pattern once its input validation passes; the token-scoped credential
verification follows the same one-request log-and-throw/propagate rule, its
single log call tagged with the `verify_token` action tag and the response
status in place of a resource name. -/
theorem c7_error_propagation {α β : Type}
    (resourceName action logMessage failMessage : String) (decode : β → α)
    (resp : HttpResult β) (vresp : VerifyHttpResponse) (e : String)
    (collectionName path : String) (o : QueryOptions)
    (hcv : validateCollectionName collectionName = .ok ())
    (hpv : validateDocumentPath path = .ok ()) :
    (resp.ok = false →
      adapterDispatchRun resourceName action logMessage failMessage decode
        (.ok resp) =
        ⟨1, [⟨logMessage, resourceName, action⟩], .error failMessage⟩) ∧
    adapterDispatchRun resourceName action logMessage failMessage decode
      (.error e) = ⟨1, [], .error e⟩ ∧
    (resp.ok = true →
      adapterDispatchRun resourceName action logMessage failMessage decode
        (.ok resp) = ⟨1, [], .ok (decode resp.body)⟩) ∧
    (∀ fetch, getCollectionListRun collectionName fetch =
      adapterDispatchRun collectionName "get_collection"
        "Failed to get collection" "Failed to get collection"
        (fun docs => docs.map decodeWireDocument) fetch) ∧
    (∀ fetch, getCollectionQueryRun collectionName o fetch =
      adapterDispatchRun collectionName "get_collection_query"
        "Failed to get collection with query" "Failed to get collection"
        (fun entries => (entries.filterMap id).map decodeWireDocument) fetch) ∧
    (∀ fetch, getDocumentRun path fetch =
      adapterDispatchRun path "get_document" "Failed to get document"
        "Failed to get document" decodeWireDocument fetch) ∧
    (∀ fetch, createDocumentRun collectionName fetch =
      adapterDispatchRun collectionName "create_document"
        "Failed to create document" "Failed to create document"
        decodeWireDocument fetch) ∧
    (∀ fetch, updateDocumentRun path fetch =
      adapterDispatchRun path "update_document" "Failed to update document"
        "Failed to update document" decodeWireDocument fetch) ∧
    (∀ fetch, deleteDocumentRun path fetch =
      adapterDispatchRun path "delete_document" "Failed to delete document"
        "Failed to delete document" (fun _ => ()) fetch) ∧
    (vresp.ok = false →
      verifyTokenRun (.ok vresp) =
        ⟨1, [⟨"Firebase token verification failed", vresp.status,
          vresp.statusText, vresp.responseData, "verify_token"⟩],
          .error "Failed to verify ID token"⟩) ∧
    verifyTokenRun (.error e) = ⟨1, [], .error e⟩ := by
  refine ⟨fun hok => ?_, rfl, fun hok => ?_, fun fetch => ?_, fun fetch => ?_,
    fun fetch => ?_, fun fetch => rfl, fun fetch => rfl, fun fetch => rfl,
    fun hok => ?_, rfl⟩
  · simp [adapterDispatchRun, hok]
  · simp [adapterDispatchRun, hok]
  · simp [getCollectionListRun, hcv]
  · simp [getCollectionQueryRun, hcv]
  · simp [getDocumentRun, hpv]
  · simp [verifyTokenRun, hok]

/-- Closed witness for `c7_error_propagation`: concrete non-2xx responses and
network failures on the structured-query path, the document-fetch path, the
delete operation and the token verification. -/
theorem c7_error_propagation_witness :
    validateCollectionName "books" = .ok () ∧
    validateDocumentPath "books/book123" = .ok () ∧
    getCollectionQueryRun "books" sampleOptions (.ok ⟨false, []⟩) =
      ⟨1, [⟨"Failed to get collection with query", "books",
        "get_collection_query"⟩], .error "Failed to get collection"⟩ ∧
    getCollectionQueryRun "books" sampleOptions (.error "Network error") =
      ⟨1, [], .error "Network error"⟩ ∧
    getDocumentRun "books/book123" (.ok ⟨false, ⟨"doc", []⟩⟩) =
      ⟨1, [⟨"Failed to get document", "books/book123", "get_document"⟩],
        .error "Failed to get document"⟩ ∧
    deleteDocumentRun "books/book123" (.error "Network error") =
      ⟨1, [], .error "Network error"⟩ ∧
    verifyTokenRun (.ok ⟨false, 401, "Unauthorized", "resp", []⟩) =
      ⟨1, [⟨"Firebase token verification failed", 401, "Unauthorized", "resp",
        "verify_token"⟩], .error "Failed to verify ID token"⟩ :=
  have hcv : validateCollectionName "books" = .ok () := rfl
  have hpv : validateDocumentPath "books/book123" = .ok () := rfl
  have hq := c7_error_propagation "books" "get_collection_query"
    "Failed to get collection with query" "Failed to get collection"
    (fun entries => (entries.filterMap id).map decodeWireDocument)
    (⟨false, []⟩ : HttpResult (List (Option WireDocument)))
    ⟨false, 401, "Unauthorized", "resp", []⟩ "Network error"
    "books" "books/book123" sampleOptions hcv hpv
  have hd := c7_error_propagation "books/book123" "get_document"
    "Failed to get document" "Failed to get document" decodeWireDocument
    (⟨false, ⟨"doc", []⟩⟩ : HttpResult WireDocument)
    ⟨false, 401, "Unauthorized", "resp", []⟩ "Network error"
    "books" "books/book123" sampleOptions hcv hpv
  have hx := c7_error_propagation "books/book123" "delete_document"
    "Failed to delete document" "Failed to delete document"
    (fun _ => ()) (⟨false, ()⟩ : HttpResult Unit)
    ⟨false, 401, "Unauthorized", "resp", []⟩ "Network error"
    "books" "books/book123" sampleOptions hcv hpv
  ⟨hcv, hpv,
    (hq.2.2.2.2.1 (.ok ⟨false, []⟩)).trans (hq.1 rfl),
    (hq.2.2.2.2.1 (.error "Network error")).trans hq.2.1,
    (hd.2.2.2.2.2.1 (.ok ⟨false, ⟨"doc", []⟩⟩)).trans (hd.1 rfl),
    (hx.2.2.2.2.2.2.2.2.1 (.error "Network error")).trans hx.2.1,
    hq.2.2.2.2.2.2.2.2.2.1 rfl⟩
